import Mathlib

/-!
Shallow embedding of the MV22/Motors DC-motor characterization library
(`src/__init__.py`).

The library is thirteen pure single-expression Python functions deriving
motor performance metrics from nameplate parameters.  Python float inputs
are modelled as exact rationals (every float is a rational) and arithmetic
is idealized as exact: the spec itself states outputs in terms of the
"mathematically exact value" of each formula.  Square roots land in ℝ.

Runtime failures are modelled with an explicit error type:
* `PyErr.zeroDivision` — Python ZeroDivisionError, raised by `a / b` when `b == 0`;
* `PyErr.domain`       — Python ValueError ("math domain error"), raised by
  `math.sqrt x` when `x < 0`;
* `PyErr.nameError`    — Python NameError, raised when an undefined name
  (here the free `w_0` in `max_continuous_torque`) is looked up.
Each embedded function returns `Except PyErr _`, and sub-expressions are
sequenced in Python's left-to-right evaluation order so that the *first*
error raised is the one returned.

`round(x, dec)` is modelled as `pyRound`: round-half-to-even of `x * 10^dec`
divided by `10^dec`, which is Python 3 `round` on exact values.
-/

inductive PyErr where
  | zeroDivision
  | domain
  | nameError
deriving DecidableEq

/-- Python true division on rationals: `a / b`, raising ZeroDivisionError on `b = 0`. -/
def pyDiv (a b : ℚ) : Except PyErr ℚ :=
  if b = 0 then Except.error PyErr.zeroDivision else Except.ok (a / b)

/-- Python true division on reals (used after a square root has produced a real). -/
noncomputable def pyDivR (a b : ℝ) : Except PyErr ℝ :=
  if b = 0 then Except.error PyErr.zeroDivision else Except.ok (a / b)

/-- Python `math.sqrt` on a rational argument: domain error when negative,
otherwise the exact real square root. -/
noncomputable def pySqrt (x : ℚ) : Except PyErr ℝ :=
  if x < 0 then Except.error PyErr.domain else Except.ok (Real.sqrt (x : ℝ))

/-- Round-half-to-even to the nearest integer (the tie-breaking rule of
Python 3 `round`). -/
def roundHalfEven {α : Type} [LinearOrderedField α] [FloorRing α] (x : α) : ℤ :=
  if x - (⌊x⌋ : α) < 1 / 2 then ⌊x⌋
  else if (1 / 2 : α) < x - (⌊x⌋ : α) then ⌊x⌋ + 1
  else if ⌊x⌋ % 2 = 0 then ⌊x⌋ else ⌊x⌋ + 1

/-- Python `round(x, dec)` on exact values: half-to-even at `dec` decimal places. -/
def pyRound {α : Type} [LinearOrderedField α] [FloorRing α] (x : α) (dec : ℤ) : α :=
  ((roundHalfEven (x * (10 : α) ^ dec) : ℤ) : α) / (10 : α) ^ dec

/-- `torque_constant(V_nom, w_0, dec=1)`: `round(V_nom/float(w_0), dec)`. -/
def torque_constant (V_nom w_0 : ℚ) (dec : ℤ) : Except PyErr ℚ :=
  (pyDiv V_nom w_0).map (fun q => pyRound q dec)

/-- `electrical_constant(V_nom, w_0, dec=1)`: `V_nom/float(w_0)` — `dec` unused. -/
def electrical_constant (V_nom w_0 : ℚ) (dec : ℤ) : Except PyErr ℚ :=
  pyDiv V_nom w_0

/-- `speed_constant(V_nom, w_0, dec=1)`: `w_0/float(V_nom)` — `dec` unused. -/
def speed_constant (V_nom w_0 : ℚ) (dec : ℤ) : Except PyErr ℚ :=
  pyDiv w_0 V_nom

/-- `motor_constant(V_nom, w_0, R, dec=1)`:
`round(V_nom/(float(w_0)*math.sqrt(R)), dec)`.  Python evaluates
`math.sqrt(R)` before the division, so a negative `R` raises the domain
error even when the denominator would be zero. -/
noncomputable def motor_constant (V_nom w_0 R : ℚ) (dec : ℤ) : Except PyErr ℝ :=
  match pySqrt R with
  | Except.error e => Except.error e
  | Except.ok s =>
    match pyDivR (V_nom : ℝ) ((w_0 : ℝ) * s) with
    | Except.error e => Except.error e
    | Except.ok r => Except.ok (pyRound r dec)

/-- `max_continuous_current(P, R, dec=1)`: `math.sqrt(P/float(R))` — no
rounding is applied and `dec` is unused. -/
noncomputable def max_continuous_current (P R : ℚ) (dec : ℤ) : Except PyErr ℝ :=
  match pyDiv P R with
  | Except.error e => Except.error e
  | Except.ok q => pySqrt q

/-- `max_continuous_torque(P, R, V_nom, dec=1)`:
`V_nom*(math.sqrt((P/R))/float(w_0))` where `w_0` is **not** a parameter and
is undefined at module scope.  Python evaluates `P/R`, then `math.sqrt`,
and only then looks up `w_0`, so the call raises ZeroDivisionError when
`R = 0`, ValueError when `P/R < 0`, and otherwise NameError; it never
returns a value. -/
noncomputable def max_continuous_torque (P R V_nom : ℚ) (dec : ℤ) : Except PyErr ℝ :=
  match pyDiv P R with
  | Except.error e => Except.error e
  | Except.ok q =>
    match pySqrt q with
    | Except.error e => Except.error e
    | Except.ok _ => Except.error PyErr.nameError

/-- `short_circuit_damping(V_nom, w_0, R, dec=1)`:
`round((V_nom**2)/float(((w_0**2)*R)), dec)`. -/
def short_circuit_damping (V_nom w_0 R : ℚ) (dec : ℤ) : Except PyErr ℚ :=
  (pyDiv (V_nom ^ 2) ((w_0 ^ 2) * R)).map (fun q => pyRound q dec)

/-- `electrical_time_constant(L, R, dec=1)`: `round(L/float(R), dec)`. -/
def electrical_time_constant (L R : ℚ) (dec : ℤ) : Except PyErr ℚ :=
  (pyDiv L R).map (fun q => pyRound q dec)

/-- `mechanical_time_constant(J, R, V_nom, w_0, dec=1)`:
`round((J*R*(w_0**2))/float((V_nom**2)), dec)`. -/
def mechanical_time_constant (J R V_nom w_0 : ℚ) (dec : ℤ) : Except PyErr ℚ :=
  (pyDiv (J * R * (w_0 ^ 2)) (V_nom ^ 2)).map (fun q => pyRound q dec)

/-- `stall_current(R, V_nom, dec=1)`: `round(V_nom/float(R), dec)`. -/
def stall_current (R V_nom : ℚ) (dec : ℤ) : Except PyErr ℚ :=
  (pyDiv V_nom R).map (fun q => pyRound q dec)

/-- `stall_torque(R, V_nom, w_0, dec=1)`: `round((V_nom**2)/float(R*w_0), dec)`. -/
def stall_torque (R V_nom w_0 : ℚ) (dec : ℤ) : Except PyErr ℚ :=
  (pyDiv (V_nom ^ 2) (R * w_0)).map (fun q => pyRound q dec)

/-- `max_mechanical_power(R, V_nom, dec=1)`: `round((V_nom**2)/float(4*R), dec)`. -/
def max_mechanical_power (R V_nom : ℚ) (dec : ℤ) : Except PyErr ℚ :=
  (pyDiv (V_nom ^ 2) (4 * R)).map (fun q => pyRound q dec)

/-- `max_efficiency(I_0, R, V_nom, dec=1)`:
`round((1 - math.sqrt(I_0*R)/float(V_nom))**2, dec)`.  Python evaluates
`math.sqrt(I_0*R)` before dividing by `V_nom`. -/
noncomputable def max_efficiency (I_0 R V_nom : ℚ) (dec : ℤ) : Except PyErr ℝ :=
  match pySqrt (I_0 * R) with
  | Except.error e => Except.error e
  | Except.ok s =>
    match pyDivR s (V_nom : ℝ) with
    | Except.error e => Except.error e
    | Except.ok q => Except.ok (pyRound ((1 - q) ^ 2) dec)

/-! ### Basic lemmas about the primitive operations -/

theorem pyDiv_ok (a b : ℚ) (h : b ≠ 0) : pyDiv a b = Except.ok (a / b) := by
  simp [pyDiv, h]

theorem pyDiv_zeroDenom (a : ℚ) : pyDiv a 0 = Except.error PyErr.zeroDivision := by
  simp [pyDiv]

theorem pyDivR_ok (a b : ℝ) (h : b ≠ 0) : pyDivR a b = Except.ok (a / b) := by
  simp [pyDivR, h]

theorem pyDivR_zeroDenom (a : ℝ) : pyDivR a 0 = Except.error PyErr.zeroDivision := by
  simp [pyDivR]

theorem pySqrt_ok (x : ℚ) (h : 0 ≤ x) : pySqrt x = Except.ok (Real.sqrt (x : ℝ)) := by
  simp [pySqrt, not_lt.mpr h]

theorem pySqrt_neg (x : ℚ) (h : x < 0) : pySqrt x = Except.error PyErr.domain := by
  simp [pySqrt, h]

/-- `roundHalfEven` commutes with the cast of a rational into the reals. -/
theorem roundHalfEven_ratCast (q : ℚ) : roundHalfEven ((q : ℝ)) = roundHalfEven q := by
  unfold roundHalfEven
  rw [Rat.floor_cast]
  have hc : (q : ℝ) - ((⌊q⌋ : ℤ) : ℝ) = ((q - ((⌊q⌋ : ℤ) : ℚ) : ℚ) : ℝ) := by
    push_cast
    ring
  have hh : ((1 : ℝ) / 2) = (((1 : ℚ) / 2 : ℚ) : ℝ) := by norm_num
  have h1 : ((q : ℝ) - ((⌊q⌋ : ℤ) : ℝ) < 1 / 2) ↔ (q - ((⌊q⌋ : ℤ) : ℚ) < 1 / 2) := by
    rw [hc, hh]
    exact Rat.cast_lt
  have h2 : ((1 : ℝ) / 2 < (q : ℝ) - ((⌊q⌋ : ℤ) : ℝ)) ↔ ((1 : ℚ) / 2 < q - ((⌊q⌋ : ℤ) : ℚ)) := by
    rw [hc, hh]
    exact Rat.cast_lt
  simp only [h1, h2]

/-- `pyRound` commutes with the cast of a rational into the reals. -/
theorem pyRound_ratCast (q : ℚ) (dec : ℤ) :
    pyRound ((q : ℝ)) dec = ((pyRound q dec : ℚ) : ℝ) := by
  unfold pyRound
  have h : (q : ℝ) * (10 : ℝ) ^ dec = ((q * (10 : ℚ) ^ dec : ℚ) : ℝ) := by
    push_cast
    ring
  rw [h, roundHalfEven_ratCast]
  push_cast
  ring

/-! ### Behaviour of each library function on valid inputs -/

theorem torque_constant_eq (V_nom w_0 : ℚ) (dec : ℤ) (h : w_0 ≠ 0) :
    torque_constant V_nom w_0 dec = Except.ok (pyRound (V_nom / w_0) dec) := by
  simp [torque_constant, pyDiv_ok _ _ h, Except.map]

theorem electrical_constant_eq (V_nom w_0 : ℚ) (dec : ℤ) (h : w_0 ≠ 0) :
    electrical_constant V_nom w_0 dec = Except.ok (V_nom / w_0) := by
  simp [electrical_constant, pyDiv_ok _ _ h]

theorem speed_constant_eq (V_nom w_0 : ℚ) (dec : ℤ) (h : V_nom ≠ 0) :
    speed_constant V_nom w_0 dec = Except.ok (w_0 / V_nom) := by
  simp [speed_constant, pyDiv_ok _ _ h]

theorem motor_constant_eq (V_nom w_0 R : ℚ) (dec : ℤ)
    (h0 : 0 ≤ R) (hR : R ≠ 0) (hw : w_0 ≠ 0) :
    motor_constant V_nom w_0 R dec =
      Except.ok (pyRound ((V_nom : ℝ) / ((w_0 : ℝ) * Real.sqrt (R : ℝ))) dec) := by
  have hRpos : (0 : ℝ) < (R : ℝ) := by
    exact_mod_cast lt_of_le_of_ne h0 (Ne.symm hR)
  have hs : Real.sqrt (R : ℝ) ≠ 0 := ne_of_gt (Real.sqrt_pos.mpr hRpos)
  have hd : (w_0 : ℝ) * Real.sqrt (R : ℝ) ≠ 0 :=
    mul_ne_zero (by exact_mod_cast hw) hs
  simp only [motor_constant, pySqrt_ok R h0, pyDivR_ok _ _ hd]

theorem max_continuous_current_eq (P R : ℚ) (dec : ℤ) (hR : R ≠ 0) (h0 : 0 ≤ P / R) :
    max_continuous_current P R dec = Except.ok (Real.sqrt ((P : ℝ) / (R : ℝ))) := by
  simp only [max_continuous_current, pyDiv_ok _ _ hR, pySqrt_ok _ h0, Rat.cast_div]

theorem max_continuous_torque_nameError (P R V_nom : ℚ) (dec : ℤ)
    (hR : R ≠ 0) (h0 : 0 ≤ P / R) :
    max_continuous_torque P R V_nom dec = Except.error PyErr.nameError := by
  simp only [max_continuous_torque, pyDiv_ok _ _ hR, pySqrt_ok _ h0]

theorem max_continuous_torque_isError (P R V_nom : ℚ) (dec : ℤ) :
    ∃ e, max_continuous_torque P R V_nom dec = Except.error e := by
  unfold max_continuous_torque
  cases hd : pyDiv P R with
  | error e => exact ⟨e, rfl⟩
  | ok q =>
    dsimp only
    cases hs : pySqrt q with
    | error e => exact ⟨e, rfl⟩
    | ok s => exact ⟨PyErr.nameError, rfl⟩

theorem short_circuit_damping_eq (V_nom w_0 R : ℚ) (dec : ℤ)
    (hw : w_0 ≠ 0) (hR : R ≠ 0) :
    short_circuit_damping V_nom w_0 R dec =
      Except.ok (pyRound ((V_nom ^ 2) / ((w_0 ^ 2) * R)) dec) := by
  have hd : (w_0 ^ 2) * R ≠ 0 := mul_ne_zero (pow_ne_zero 2 hw) hR
  simp [short_circuit_damping, pyDiv_ok _ _ hd, Except.map]

theorem electrical_time_constant_eq (L R : ℚ) (dec : ℤ) (hR : R ≠ 0) :
    electrical_time_constant L R dec = Except.ok (pyRound (L / R) dec) := by
  simp [electrical_time_constant, pyDiv_ok _ _ hR, Except.map]

theorem mechanical_time_constant_eq (J R V_nom w_0 : ℚ) (dec : ℤ) (hV : V_nom ≠ 0) :
    mechanical_time_constant J R V_nom w_0 dec =
      Except.ok (pyRound ((J * R * (w_0 ^ 2)) / (V_nom ^ 2)) dec) := by
  simp [mechanical_time_constant, pyDiv_ok _ _ (pow_ne_zero 2 hV), Except.map]

theorem stall_current_eq (R V_nom : ℚ) (dec : ℤ) (hR : R ≠ 0) :
    stall_current R V_nom dec = Except.ok (pyRound (V_nom / R) dec) := by
  simp [stall_current, pyDiv_ok _ _ hR, Except.map]

theorem stall_torque_eq (R V_nom w_0 : ℚ) (dec : ℤ) (hR : R ≠ 0) (hw : w_0 ≠ 0) :
    stall_torque R V_nom w_0 dec =
      Except.ok (pyRound ((V_nom ^ 2) / (R * w_0)) dec) := by
  simp [stall_torque, pyDiv_ok _ _ (mul_ne_zero hR hw), Except.map]

theorem max_mechanical_power_eq (R V_nom : ℚ) (dec : ℤ) (hR : R ≠ 0) :
    max_mechanical_power R V_nom dec =
      Except.ok (pyRound ((V_nom ^ 2) / (4 * R)) dec) := by
  have hd : (4 : ℚ) * R ≠ 0 := mul_ne_zero (by norm_num) hR
  simp [max_mechanical_power, pyDiv_ok _ _ hd, Except.map]

theorem max_efficiency_eq (I_0 R V_nom : ℚ) (dec : ℤ)
    (h0 : 0 ≤ I_0 * R) (hV : V_nom ≠ 0) :
    max_efficiency I_0 R V_nom dec =
      Except.ok (pyRound ((1 - Real.sqrt ((I_0 : ℝ) * (R : ℝ)) / (V_nom : ℝ)) ^ 2) dec) := by
  have hVr : (V_nom : ℝ) ≠ 0 := by exact_mod_cast hV
  simp only [max_efficiency, pySqrt_ok _ h0, pyDivR_ok _ _ hVr, Rat.cast_mul]

/-! ### Zero-denominator behaviour of each library function -/

theorem torque_constant_zeroDenom (V_nom : ℚ) (dec : ℤ) :
    torque_constant V_nom 0 dec = Except.error PyErr.zeroDivision := by
  simp [torque_constant, pyDiv_zeroDenom, Except.map]

theorem electrical_constant_zeroDenom (V_nom : ℚ) (dec : ℤ) :
    electrical_constant V_nom 0 dec = Except.error PyErr.zeroDivision := by
  simp [electrical_constant, pyDiv_zeroDenom]

theorem speed_constant_zeroDenom (w_0 : ℚ) (dec : ℤ) :
    speed_constant 0 w_0 dec = Except.error PyErr.zeroDivision := by
  simp [speed_constant, pyDiv_zeroDenom]

theorem motor_constant_zeroSpeed (V_nom R : ℚ) (dec : ℤ) (h0 : 0 ≤ R) :
    motor_constant V_nom 0 R dec = Except.error PyErr.zeroDivision := by
  simp only [motor_constant, pySqrt_ok R h0, Rat.cast_zero, zero_mul, pyDivR_zeroDenom]

theorem motor_constant_zeroR (V_nom w_0 : ℚ) (dec : ℤ) :
    motor_constant V_nom w_0 0 dec = Except.error PyErr.zeroDivision := by
  norm_num [motor_constant, pySqrt, pyDivR]

theorem max_continuous_current_zeroDenom (P : ℚ) (dec : ℤ) :
    max_continuous_current P 0 dec = Except.error PyErr.zeroDivision := by
  simp [max_continuous_current, pyDiv_zeroDenom]

theorem max_continuous_torque_zeroDenom (P V_nom : ℚ) (dec : ℤ) :
    max_continuous_torque P 0 V_nom dec = Except.error PyErr.zeroDivision := by
  simp [max_continuous_torque, pyDiv_zeroDenom]

theorem short_circuit_damping_zeroSpeed (V_nom R : ℚ) (dec : ℤ) :
    short_circuit_damping V_nom 0 R dec = Except.error PyErr.zeroDivision := by
  simp [short_circuit_damping, pyDiv, Except.map]

theorem short_circuit_damping_zeroR (V_nom w_0 : ℚ) (dec : ℤ) :
    short_circuit_damping V_nom w_0 0 dec = Except.error PyErr.zeroDivision := by
  simp [short_circuit_damping, pyDiv, Except.map]

theorem electrical_time_constant_zeroDenom (L : ℚ) (dec : ℤ) :
    electrical_time_constant L 0 dec = Except.error PyErr.zeroDivision := by
  simp [electrical_time_constant, pyDiv_zeroDenom, Except.map]

theorem mechanical_time_constant_zeroDenom (J R w_0 : ℚ) (dec : ℤ) :
    mechanical_time_constant J R 0 w_0 dec = Except.error PyErr.zeroDivision := by
  simp [mechanical_time_constant, pyDiv, Except.map]

theorem stall_current_zeroDenom (V_nom : ℚ) (dec : ℤ) :
    stall_current 0 V_nom dec = Except.error PyErr.zeroDivision := by
  simp [stall_current, pyDiv_zeroDenom, Except.map]

theorem stall_torque_zeroR (V_nom w_0 : ℚ) (dec : ℤ) :
    stall_torque 0 V_nom w_0 dec = Except.error PyErr.zeroDivision := by
  simp [stall_torque, pyDiv, Except.map]

theorem stall_torque_zeroSpeed (R V_nom : ℚ) (dec : ℤ) :
    stall_torque R V_nom 0 dec = Except.error PyErr.zeroDivision := by
  simp [stall_torque, pyDiv, Except.map]

theorem max_mechanical_power_zeroDenom (V_nom : ℚ) (dec : ℤ) :
    max_mechanical_power 0 V_nom dec = Except.error PyErr.zeroDivision := by
  simp [max_mechanical_power, pyDiv, Except.map]

theorem max_efficiency_zeroDenom (I_0 R : ℚ) (dec : ℤ) (h0 : 0 ≤ I_0 * R) :
    max_efficiency I_0 R 0 dec = Except.error PyErr.zeroDivision := by
  simp only [max_efficiency, pySqrt_ok _ h0, Rat.cast_zero, pyDivR_zeroDenom]

/-! ### Domain-error behaviour of the square-root functions -/

theorem max_continuous_current_domainError (P R : ℚ) (dec : ℤ)
    (hR : R ≠ 0) (hneg : P / R < 0) :
    max_continuous_current P R dec = Except.error PyErr.domain := by
  simp only [max_continuous_current, pyDiv_ok _ _ hR, pySqrt_neg _ hneg]

theorem motor_constant_domainError (V_nom w_0 R : ℚ) (dec : ℤ) (hneg : R < 0) :
    motor_constant V_nom w_0 R dec = Except.error PyErr.domain := by
  simp only [motor_constant, pySqrt_neg _ hneg]

theorem max_efficiency_domainError (I_0 R V_nom : ℚ) (dec : ℤ) (hneg : I_0 * R < 0) :
    max_efficiency I_0 R V_nom dec = Except.error PyErr.domain := by
  simp only [max_efficiency, pySqrt_neg _ hneg]

/-! ### Concrete evaluations used below -/

theorem pyRound_24_754 : pyRound ((24 : ℚ) / 754) 3 = 4 / 125 := by
  norm_num [pyRound, roundHalfEven, Int.fract]

theorem pyRound_18 : pyRound ((144 : ℚ) / 8) 1 = 18 := by
  norm_num [pyRound, roundHalfEven, Int.fract]

theorem pyRound_half : pyRound ((1 : ℝ) / 2) 0 = 0 := by
  rw [show ((1 : ℝ) / 2) = (((1 / 2 : ℚ)) : ℝ) by norm_num, pyRound_ratCast]
  norm_num [pyRound, roundHalfEven, Int.fract]

theorem sqrt_quarter : Real.sqrt ((1 : ℝ) / 4) = 1 / 2 := by
  rw [show (1 / 4 : ℝ) = (1 / 2 : ℝ) ^ 2 by norm_num, Real.sqrt_sq (by norm_num)]

/-! ### The audited claims -/

/-- Claim C1, counterexample to the claim as stated: calling
`max_continuous_torque` with `R = 0` raises ZeroDivisionError (from the
`P/R` sub-expression, which Python evaluates before looking up the
undefined `w_0`), not a name-resolution error. -/
theorem claim_C1_counterexample :
    max_continuous_torque 1 0 1 1 = Except.error PyErr.zeroDivision ∧
      PyErr.zeroDivision ≠ PyErr.nameError := by
  refine ⟨max_continuous_torque_zeroDenom 1 1 1, ?_⟩
  decide

/-- Claim C1 (amended): every call to `max_continuous_torque` fails and
never returns a value; whenever `R ≠ 0` and `P/R ≥ 0` — that is, whenever
no arithmetic error precedes the lookup of the undeclared `w_0` — the
failure is the name-resolution (undefined-reference) error. -/
theorem claim_C1 :
    (∀ (P R V_nom : ℚ) (dec : ℤ), ∃ e, max_continuous_torque P R V_nom dec = Except.error e) ∧
      (∀ (P R V_nom : ℚ) (dec : ℤ), R ≠ 0 → 0 ≤ P / R →
        max_continuous_torque P R V_nom dec = Except.error PyErr.nameError) := by
  exact ⟨max_continuous_torque_isError,
    fun P R V_nom dec hR h0 => max_continuous_torque_nameError P R V_nom dec hR h0⟩

/-- Witness for claim C1 at `P = 1`, `R = 1`, `V_nom = 1`, `dec = 1`. -/
theorem claim_C1_witness :
    max_continuous_torque 1 1 1 1 = Except.error PyErr.nameError :=
  claim_C1.2 1 1 1 1 one_ne_zero (by norm_num)

/-- Claim C2, counterexample to the claim as stated: `max_continuous_current`
is not `electrical_constant` or `speed_constant`, yet at `P = 1`, `R = 4`,
`dec = 0` it returns the unrounded value `√(1/4) = 0.5`, while the exact
value of its formula rounded to 0 decimal places is `0`. -/
theorem claim_C2_counterexample :
    max_continuous_current 1 4 0 ≠ Except.ok (pyRound (Real.sqrt ((1 : ℝ) / 4)) 0) := by
  have h1 : max_continuous_current 1 4 0 = Except.ok (Real.sqrt ((1 : ℝ) / 4)) := by
    have := max_continuous_current_eq 1 4 0 (by norm_num) (by norm_num)
    rw [this]
    norm_num
  rw [h1, sqrt_quarter, pyRound_half]
  simp only [ne_eq, Except.ok.injEq]
  norm_num

/-- Claim C2 (amended): for every function of the library except
`electrical_constant`, `speed_constant` and `max_continuous_current`
(which return their result unrounded) and `max_continuous_torque` (which
never returns a value), and for every valid input, the returned value is
the mathematically exact value of the function's formula rounded
half-to-even to `dec` decimal places. -/
theorem claim_C2 :
    (∀ (V_nom w_0 : ℚ) (dec : ℤ), w_0 ≠ 0 →
        torque_constant V_nom w_0 dec = Except.ok (pyRound (V_nom / w_0) dec)) ∧
      (∀ (V_nom w_0 R : ℚ) (dec : ℤ), 0 ≤ R → R ≠ 0 → w_0 ≠ 0 →
        motor_constant V_nom w_0 R dec =
          Except.ok (pyRound ((V_nom : ℝ) / ((w_0 : ℝ) * Real.sqrt (R : ℝ))) dec)) ∧
      (∀ (V_nom w_0 R : ℚ) (dec : ℤ), w_0 ≠ 0 → R ≠ 0 →
        short_circuit_damping V_nom w_0 R dec =
          Except.ok (pyRound ((V_nom ^ 2) / ((w_0 ^ 2) * R)) dec)) ∧
      (∀ (L R : ℚ) (dec : ℤ), R ≠ 0 →
        electrical_time_constant L R dec = Except.ok (pyRound (L / R) dec)) ∧
      (∀ (J R V_nom w_0 : ℚ) (dec : ℤ), V_nom ≠ 0 →
        mechanical_time_constant J R V_nom w_0 dec =
          Except.ok (pyRound ((J * R * (w_0 ^ 2)) / (V_nom ^ 2)) dec)) ∧
      (∀ (R V_nom : ℚ) (dec : ℤ), R ≠ 0 →
        stall_current R V_nom dec = Except.ok (pyRound (V_nom / R) dec)) ∧
      (∀ (R V_nom w_0 : ℚ) (dec : ℤ), R ≠ 0 → w_0 ≠ 0 →
        stall_torque R V_nom w_0 dec = Except.ok (pyRound ((V_nom ^ 2) / (R * w_0)) dec)) ∧
      (∀ (R V_nom : ℚ) (dec : ℤ), R ≠ 0 →
        max_mechanical_power R V_nom dec = Except.ok (pyRound ((V_nom ^ 2) / (4 * R)) dec)) ∧
      (∀ (I_0 R V_nom : ℚ) (dec : ℤ), 0 ≤ I_0 * R → V_nom ≠ 0 →
        max_efficiency I_0 R V_nom dec =
          Except.ok (pyRound ((1 - Real.sqrt ((I_0 : ℝ) * (R : ℝ)) / (V_nom : ℝ)) ^ 2) dec)) := by
  refine ⟨?_, ?_, ?_, ?_, ?_, ?_, ?_, ?_, ?_⟩
  · exact fun V_nom w_0 dec h => torque_constant_eq V_nom w_0 dec h
  · exact fun V_nom w_0 R dec h0 hR hw => motor_constant_eq V_nom w_0 R dec h0 hR hw
  · exact fun V_nom w_0 R dec hw hR => short_circuit_damping_eq V_nom w_0 R dec hw hR
  · exact fun L R dec hR => electrical_time_constant_eq L R dec hR
  · exact fun J R V_nom w_0 dec hV => mechanical_time_constant_eq J R V_nom w_0 dec hV
  · exact fun R V_nom dec hR => stall_current_eq R V_nom dec hR
  · exact fun R V_nom w_0 dec hR hw => stall_torque_eq R V_nom w_0 dec hR hw
  · exact fun R V_nom dec hR => max_mechanical_power_eq R V_nom dec hR
  · exact fun I_0 R V_nom dec h0 hV => max_efficiency_eq I_0 R V_nom dec h0 hV

/-- Witness for claim C2, instantiating every conjunct at concrete inputs. -/
theorem claim_C2_witness :
    torque_constant 24 754 3 = Except.ok (pyRound ((24 : ℚ) / 754) 3) ∧
      motor_constant 24 754 4 1 =
        Except.ok (pyRound (((24 : ℚ) : ℝ) / (((754 : ℚ) : ℝ) * Real.sqrt (((4 : ℚ)) : ℝ))) 1) ∧
      short_circuit_damping 12 754 2 1 =
        Except.ok (pyRound (((12 : ℚ) ^ 2) / (((754 : ℚ) ^ 2) * 2)) 1) ∧
      electrical_time_constant (1 / 1000) 2 4 =
        Except.ok (pyRound ((1 / 1000 : ℚ) / 2) 4) ∧
      mechanical_time_constant 1 2 12 754 1 =
        Except.ok (pyRound (((1 : ℚ) * 2 * (754 ^ 2)) / (12 ^ 2)) 1) ∧
      stall_current 2 12 1 = Except.ok (pyRound ((12 : ℚ) / 2) 1) ∧
      stall_torque 2 12 754 1 = Except.ok (pyRound (((12 : ℚ) ^ 2) / (2 * 754)) 1) ∧
      max_mechanical_power 2 12 1 = Except.ok (pyRound (((12 : ℚ) ^ 2) / (4 * 2)) 1) ∧
      max_efficiency 1 2 12 1 =
        Except.ok (pyRound ((1 - Real.sqrt (((1 : ℚ) : ℝ) * ((2 : ℚ) : ℝ)) / ((12 : ℚ) : ℝ)) ^ 2) 1) :=
  ⟨claim_C2.1 24 754 3 (by norm_num),
    claim_C2.2.1 24 754 4 1 (by norm_num) (by norm_num) (by norm_num),
    claim_C2.2.2.1 12 754 2 1 (by norm_num) (by norm_num),
    claim_C2.2.2.2.1 (1 / 1000) 2 4 (by norm_num),
    claim_C2.2.2.2.2.1 1 2 12 754 1 (by norm_num),
    claim_C2.2.2.2.2.2.1 2 12 1 (by norm_num),
    claim_C2.2.2.2.2.2.2.1 2 12 754 1 (by norm_num) (by norm_num),
    claim_C2.2.2.2.2.2.2.2.1 2 12 1 (by norm_num),
    claim_C2.2.2.2.2.2.2.2.2 1 2 12 1 (by norm_num) (by norm_num)⟩

/-- Claim C3: `electrical_constant` returns the full-precision value
`V_nom / w_0` and `speed_constant` the full-precision value `w_0 / V_nom`;
neither applies the rounding precision `dec`, and the result is the same
for any value of `dec`. -/
theorem claim_C3 :
    (∀ (V_nom w_0 : ℚ) (dec : ℤ), w_0 ≠ 0 →
        electrical_constant V_nom w_0 dec = Except.ok (V_nom / w_0)) ∧
      (∀ (V_nom w_0 : ℚ) (dec : ℤ), V_nom ≠ 0 →
        speed_constant V_nom w_0 dec = Except.ok (w_0 / V_nom)) ∧
      (∀ (V_nom w_0 : ℚ) (dec dec' : ℤ),
        electrical_constant V_nom w_0 dec = electrical_constant V_nom w_0 dec') ∧
      (∀ (V_nom w_0 : ℚ) (dec dec' : ℤ),
        speed_constant V_nom w_0 dec = speed_constant V_nom w_0 dec') :=
  ⟨fun V_nom w_0 dec h => electrical_constant_eq V_nom w_0 dec h,
    fun V_nom w_0 dec h => speed_constant_eq V_nom w_0 dec h,
    fun _ _ _ _ => rfl,
    fun _ _ _ _ => rfl⟩

/-- Witness for claim C3 at `V_nom = 24`, `w_0 = 754`. -/
theorem claim_C3_witness :
    electrical_constant 24 754 3 = Except.ok ((24 : ℚ) / 754) ∧
      speed_constant 24 754 3 = Except.ok ((754 : ℚ) / 24) :=
  ⟨claim_C3.1 24 754 3 (by norm_num), claim_C3.2.1 24 754 3 (by norm_num)⟩

/-- Claim C4: for positive inputs `torque_constant` returns `V_nom / w_0`
rounded to `dec` decimal places; in particular
`torque_constant(24, 754, dec=3) == round(24/754, 3) == 0.032`. -/
theorem claim_C4 :
    (∀ (V_nom w_0 : ℚ) (dec : ℤ), 0 < V_nom → 0 < w_0 →
        torque_constant V_nom w_0 dec = Except.ok (pyRound (V_nom / w_0) dec)) ∧
      torque_constant 24 754 3 = Except.ok (pyRound ((24 : ℚ) / 754) 3) ∧
      pyRound ((24 : ℚ) / 754) 3 = 4 / 125 :=
  ⟨fun V_nom w_0 dec _ hw => torque_constant_eq V_nom w_0 dec (ne_of_gt hw),
    torque_constant_eq 24 754 3 (by norm_num),
    pyRound_24_754⟩

/-- Witness for claim C4 at `V_nom = 24`, `w_0 = 754`, `dec = 3`. -/
theorem claim_C4_witness :
    torque_constant 24 754 3 = Except.ok (pyRound ((24 : ℚ) / 754) 3) :=
  claim_C4.1 24 754 3 (by norm_num) (by norm_num)

/-- Claim C5: for every function of the library, passing zero for a
parameter that appears in that function's denominator yields the
division-by-zero error (and hence no value), the other inputs being in
the formula's domain.  There is one conjunct per function and zero
denominator parameter, in source order. -/
theorem claim_C5 :
    (∀ (V_nom : ℚ) (dec : ℤ),
        torque_constant V_nom 0 dec = Except.error PyErr.zeroDivision) ∧
      (∀ (V_nom : ℚ) (dec : ℤ),
        electrical_constant V_nom 0 dec = Except.error PyErr.zeroDivision) ∧
      (∀ (w_0 : ℚ) (dec : ℤ),
        speed_constant 0 w_0 dec = Except.error PyErr.zeroDivision) ∧
      (∀ (V_nom R : ℚ) (dec : ℤ), 0 ≤ R →
        motor_constant V_nom 0 R dec = Except.error PyErr.zeroDivision) ∧
      (∀ (V_nom w_0 : ℚ) (dec : ℤ),
        motor_constant V_nom w_0 0 dec = Except.error PyErr.zeroDivision) ∧
      (∀ (P : ℚ) (dec : ℤ),
        max_continuous_current P 0 dec = Except.error PyErr.zeroDivision) ∧
      (∀ (P V_nom : ℚ) (dec : ℤ),
        max_continuous_torque P 0 V_nom dec = Except.error PyErr.zeroDivision) ∧
      (∀ (V_nom R : ℚ) (dec : ℤ),
        short_circuit_damping V_nom 0 R dec = Except.error PyErr.zeroDivision) ∧
      (∀ (V_nom w_0 : ℚ) (dec : ℤ),
        short_circuit_damping V_nom w_0 0 dec = Except.error PyErr.zeroDivision) ∧
      (∀ (L : ℚ) (dec : ℤ),
        electrical_time_constant L 0 dec = Except.error PyErr.zeroDivision) ∧
      (∀ (J R w_0 : ℚ) (dec : ℤ),
        mechanical_time_constant J R 0 w_0 dec = Except.error PyErr.zeroDivision) ∧
      (∀ (V_nom : ℚ) (dec : ℤ),
        stall_current 0 V_nom dec = Except.error PyErr.zeroDivision) ∧
      (∀ (V_nom w_0 : ℚ) (dec : ℤ),
        stall_torque 0 V_nom w_0 dec = Except.error PyErr.zeroDivision) ∧
      (∀ (R V_nom : ℚ) (dec : ℤ),
        stall_torque R V_nom 0 dec = Except.error PyErr.zeroDivision) ∧
      (∀ (V_nom : ℚ) (dec : ℤ),
        max_mechanical_power 0 V_nom dec = Except.error PyErr.zeroDivision) ∧
      (∀ (I_0 R : ℚ) (dec : ℤ), 0 ≤ I_0 * R →
        max_efficiency I_0 R 0 dec = Except.error PyErr.zeroDivision) :=
  ⟨torque_constant_zeroDenom, electrical_constant_zeroDenom, speed_constant_zeroDenom,
    fun V_nom R dec h0 => motor_constant_zeroSpeed V_nom R dec h0,
    motor_constant_zeroR, max_continuous_current_zeroDenom, max_continuous_torque_zeroDenom,
    short_circuit_damping_zeroSpeed, short_circuit_damping_zeroR,
    electrical_time_constant_zeroDenom, mechanical_time_constant_zeroDenom,
    stall_current_zeroDenom, stall_torque_zeroR, stall_torque_zeroSpeed,
    max_mechanical_power_zeroDenom,
    fun I_0 R dec h0 => max_efficiency_zeroDenom I_0 R dec h0⟩

/-- Witness for claim C5, instantiating the two hypothesis-bearing
conjuncts at concrete inputs. -/
theorem claim_C5_witness :
    motor_constant 12 0 2 1 = Except.error PyErr.zeroDivision ∧
      max_efficiency 1 2 0 1 = Except.error PyErr.zeroDivision :=
  ⟨claim_C5.2.2.2.1 12 2 1 (by norm_num),
    claim_C5.2.2.2.2.2.2.2.2.2.2.2.2.2.2.2 1 2 1 (by norm_num)⟩

/-- Claim C6: each square-root-using function raises the domain error when
its square-root argument is negative: `max_continuous_current` when
`P/R < 0` (with `R ≠ 0` so the division succeeds first),
`motor_constant` when `R < 0`, and `max_efficiency` when `I_0·R < 0`. -/
theorem claim_C6 :
    (∀ (P R : ℚ) (dec : ℤ), R ≠ 0 → P / R < 0 →
        max_continuous_current P R dec = Except.error PyErr.domain) ∧
      (∀ (V_nom w_0 R : ℚ) (dec : ℤ), R < 0 →
        motor_constant V_nom w_0 R dec = Except.error PyErr.domain) ∧
      (∀ (I_0 R V_nom : ℚ) (dec : ℤ), I_0 * R < 0 →
        max_efficiency I_0 R V_nom dec = Except.error PyErr.domain) :=
  ⟨fun P R dec hR hneg => max_continuous_current_domainError P R dec hR hneg,
    fun V_nom w_0 R dec hneg => motor_constant_domainError V_nom w_0 R dec hneg,
    fun I_0 R V_nom dec hneg => max_efficiency_domainError I_0 R V_nom dec hneg⟩

/-- Witness for claim C6 at negative square-root arguments. -/
theorem claim_C6_witness :
    max_continuous_current (-1) 1 1 = Except.error PyErr.domain ∧
      motor_constant 1 1 (-1) 1 = Except.error PyErr.domain ∧
      max_efficiency (-1) 1 1 1 = Except.error PyErr.domain :=
  ⟨claim_C6.1 (-1) 1 1 (by norm_num) (by norm_num),
    claim_C6.2.1 1 1 (-1) 1 (by norm_num),
    claim_C6.2.2 (-1) 1 1 1 (by norm_num)⟩

/-- Claim C7: for positive inputs `max_mechanical_power` returns
`V_nom² / (4·R)` rounded to `dec` decimal places; in particular
`max_mechanical_power(R=2, V_nom=12) == 18.0`. -/
theorem claim_C7 :
    (∀ (R V_nom : ℚ) (dec : ℤ), 0 < R → 0 < V_nom →
        max_mechanical_power R V_nom dec = Except.ok (pyRound ((V_nom ^ 2) / (4 * R)) dec)) ∧
      max_mechanical_power 2 12 1 = Except.ok 18 := by
  constructor
  · exact fun R V_nom dec hR _ => max_mechanical_power_eq R V_nom dec (ne_of_gt hR)
  · rw [max_mechanical_power_eq 2 12 1 (by norm_num)]
    norm_num [pyRound, roundHalfEven, Int.fract]

/-- Witness for claim C7 at `R = 2`, `V_nom = 12`, `dec = 1`. -/
theorem claim_C7_witness :
    max_mechanical_power 2 12 1 = Except.ok (pyRound (((12 : ℚ) ^ 2) / (4 * 2)) 1) :=
  claim_C7.1 2 12 1 (by norm_num) (by norm_num)

/-- Claim C8: every function of the library is deterministic — two calls
with identical argument values give identical results.  Side-effect
freedom holds by construction of the embedding: each function is a total
function of its declared arguments alone, with no other state in the
model. -/
theorem claim_C8 :
    (∀ (V_nom w_0 : ℚ) (dec : ℤ) (V_nom' w_0' : ℚ) (dec' : ℤ),
        V_nom = V_nom' → w_0 = w_0' → dec = dec' →
        torque_constant V_nom w_0 dec = torque_constant V_nom' w_0' dec') ∧
      (∀ (V_nom w_0 : ℚ) (dec : ℤ) (V_nom' w_0' : ℚ) (dec' : ℤ),
        V_nom = V_nom' → w_0 = w_0' → dec = dec' →
        electrical_constant V_nom w_0 dec = electrical_constant V_nom' w_0' dec') ∧
      (∀ (V_nom w_0 : ℚ) (dec : ℤ) (V_nom' w_0' : ℚ) (dec' : ℤ),
        V_nom = V_nom' → w_0 = w_0' → dec = dec' →
        speed_constant V_nom w_0 dec = speed_constant V_nom' w_0' dec') ∧
      (∀ (V_nom w_0 R : ℚ) (dec : ℤ) (V_nom' w_0' R' : ℚ) (dec' : ℤ),
        V_nom = V_nom' → w_0 = w_0' → R = R' → dec = dec' →
        motor_constant V_nom w_0 R dec = motor_constant V_nom' w_0' R' dec') ∧
      (∀ (P R : ℚ) (dec : ℤ) (P' R' : ℚ) (dec' : ℤ),
        P = P' → R = R' → dec = dec' →
        max_continuous_current P R dec = max_continuous_current P' R' dec') ∧
      (∀ (P R V_nom : ℚ) (dec : ℤ) (P' R' V_nom' : ℚ) (dec' : ℤ),
        P = P' → R = R' → V_nom = V_nom' → dec = dec' →
        max_continuous_torque P R V_nom dec = max_continuous_torque P' R' V_nom' dec') ∧
      (∀ (V_nom w_0 R : ℚ) (dec : ℤ) (V_nom' w_0' R' : ℚ) (dec' : ℤ),
        V_nom = V_nom' → w_0 = w_0' → R = R' → dec = dec' →
        short_circuit_damping V_nom w_0 R dec = short_circuit_damping V_nom' w_0' R' dec') ∧
      (∀ (L R : ℚ) (dec : ℤ) (L' R' : ℚ) (dec' : ℤ),
        L = L' → R = R' → dec = dec' →
        electrical_time_constant L R dec = electrical_time_constant L' R' dec') ∧
      (∀ (J R V_nom w_0 : ℚ) (dec : ℤ) (J' R' V_nom' w_0' : ℚ) (dec' : ℤ),
        J = J' → R = R' → V_nom = V_nom' → w_0 = w_0' → dec = dec' →
        mechanical_time_constant J R V_nom w_0 dec =
          mechanical_time_constant J' R' V_nom' w_0' dec') ∧
      (∀ (R V_nom : ℚ) (dec : ℤ) (R' V_nom' : ℚ) (dec' : ℤ),
        R = R' → V_nom = V_nom' → dec = dec' →
        stall_current R V_nom dec = stall_current R' V_nom' dec') ∧
      (∀ (R V_nom w_0 : ℚ) (dec : ℤ) (R' V_nom' w_0' : ℚ) (dec' : ℤ),
        R = R' → V_nom = V_nom' → w_0 = w_0' → dec = dec' →
        stall_torque R V_nom w_0 dec = stall_torque R' V_nom' w_0' dec') ∧
      (∀ (R V_nom : ℚ) (dec : ℤ) (R' V_nom' : ℚ) (dec' : ℤ),
        R = R' → V_nom = V_nom' → dec = dec' →
        max_mechanical_power R V_nom dec = max_mechanical_power R' V_nom' dec') ∧
      (∀ (I_0 R V_nom : ℚ) (dec : ℤ) (I_0' R' V_nom' : ℚ) (dec' : ℤ),
        I_0 = I_0' → R = R' → V_nom = V_nom' → dec = dec' →
        max_efficiency I_0 R V_nom dec = max_efficiency I_0' R' V_nom' dec') := by
  refine ⟨?_, ?_, ?_, ?_, ?_, ?_, ?_, ?_, ?_, ?_, ?_, ?_, ?_⟩ <;>
    (intros; subst_vars; rfl)

/-- Witness for claim C8: two identical calls to `torque_constant` agree. -/
theorem claim_C8_witness :
    torque_constant 24 754 1 = torque_constant 24 754 1 :=
  claim_C8.1 24 754 1 24 754 1 rfl rfl rfl

/-- Claim C9: for positive `P` and `R`, `max_continuous_current` returns
the unrounded full-precision value `√(P/R)`, and `dec` has no effect on
the result. -/
theorem claim_C9 :
    (∀ (P R : ℚ) (dec : ℤ), 0 < P → 0 < R →
        max_continuous_current P R dec = Except.ok (Real.sqrt ((P : ℝ) / (R : ℝ)))) ∧
      (∀ (P R : ℚ) (dec dec' : ℤ),
        max_continuous_current P R dec = max_continuous_current P R dec') :=
  ⟨fun P R dec hP hR =>
      max_continuous_current_eq P R dec (ne_of_gt hR)
        (div_nonneg (le_of_lt hP) (le_of_lt hR)),
    fun _ _ _ _ => rfl⟩

/-- Witness for claim C9 at `P = 1`, `R = 4`, `dec = 0`. -/
theorem claim_C9_witness :
    max_continuous_current 1 4 0 = Except.ok (Real.sqrt (((1 : ℚ) : ℝ) / ((4 : ℚ) : ℝ))) :=
  claim_C9.1 1 4 0 (by norm_num) (by norm_num)

/-- Claim C10: for positive inputs, `torque_constant` is exactly
`electrical_constant` with `pyRound · dec` applied to its result, for any
rounding argument `dec'` passed to `electrical_constant` — both compute
`V_nom / w_0`, differing only in whether rounding is applied. -/
theorem claim_C10 :
    ∀ (V_nom w_0 : ℚ) (dec dec' : ℤ), 0 < V_nom → 0 < w_0 →
      torque_constant V_nom w_0 dec =
        (electrical_constant V_nom w_0 dec').map (fun x => pyRound x dec) := by
  intro V_nom w_0 dec dec' _ hw
  rw [torque_constant_eq V_nom w_0 dec (ne_of_gt hw),
    electrical_constant_eq V_nom w_0 dec' (ne_of_gt hw)]
  rfl

/-- Witness for claim C10 at `V_nom = 24`, `w_0 = 754`, `dec = 3`, `dec' = 5`. -/
theorem claim_C10_witness :
    torque_constant 24 754 3 =
      (electrical_constant 24 754 5).map (fun x => pyRound x 3) :=
  claim_C10 24 754 3 5 (by norm_num) (by norm_num)
